import Mathlib

/-!
Shallow embedding of the cblox `SubmapServer` node
(`src/cblox_ros/src/submap_server.cc`) for checking its natural-language
specification.

Times and durations are modelled as integer nanosecond counts (`ros::Time` /
`ros::Duration` compare exactly on normalized sec/nsec pairs, so integer
nanoseconds are a faithful model).  External collaborators whose code is not
part of this repository slice (the submap collection, the TSDF integrator,
the message (de)serializers and the `mapIntialized` accessor from the
header) are modelled from the spec, each marked in its doc comment.
-/

namespace Cblox

/-- Nanosecond timestamp (`ros::Time` / `ros::WallTime`). -/
abbrev Time := Int

/-- Modelled from the spec: a rigid transform (rotation + translation).
The payloadless default-constructed `Transformation` (kindr) is the identity
transform; we model rotation as a quaternion and translation as a vector of
integer coordinates (the claims only ever compare transforms for equality
with the identity). -/
structure Transformation where
  qw : Int
  qx : Int
  qy : Int
  qz : Int
  tx : Int
  ty : Int
  tz : Int
deriving DecidableEq

/-- The default-constructed (identity) transform, as produced by
`Transformation T_M_S;` in `publishSubmap`. -/
def Transformation.identity : Transformation := ⟨1, 0, 0, 0, 0, 0, 0⟩

/-- A `sensor_msgs::PointCloud2` message as far as the server inspects it:
its header stamp and frame id.  `seq` is the arrival identity of the frame
(standing in for the point data, which the server only forwards). -/
structure PointcloudMsg where
  stamp : Time
  frame_id : String
  seq : Nat
deriving DecidableEq

/-- Modelled from the spec: the opaque serialized volumetric payload of a
submap.  Integration appends frame identities; the projected (merged) map
concatenates payloads. -/
abbrev Payload := List Nat

/-- Modelled from the spec: a `TsdfSubmap` record as used by the server —
identifier, base pose and volumetric payload. -/
structure TsdfSubmap where
  id : Nat
  pose : Transformation
  payload : Payload
deriving DecidableEq

/-- The wire message `cblox_msgs::Submap` as filled by
`serializeSubmapToMsg`: submap id, pose and serialized payload. -/
structure SubmapMsg where
  id : Nat
  pose : Transformation
  payload : Payload
deriving DecidableEq

/-- Modelled from the spec: the external `SubmapCollection` (SubmapStore).
It owns the submaps, tracks the active one by id and assigns ids
monotonically. -/
structure SubmapCollection where
  submaps : List TsdfSubmap
  active_id : Nat
  next_id : Nat
deriving DecidableEq

namespace SubmapCollection

/-- The empty collection created in the server constructor. -/
def empty : SubmapCollection := ⟨[], 0, 0⟩

/-- `getSubMapConstPtrById`: look a submap up by id (null pointer ↦ `none`). -/
def getSubMapConstPtrById (c : SubmapCollection) (id : Nat) : Option TsdfSubmap :=
  c.submaps.find? (fun s => s.id == id)

/-- `exists(id)`: membership of an id in the collection. -/
def existsId (c : SubmapCollection) (id : Nat) : Bool :=
  c.submaps.any (fun s => s.id == id)

/-- `getActiveSubMapID`. -/
def getActiveSubMapID (c : SubmapCollection) : Nat := c.active_id

/-- `activateSubMap(id)`: make the submap with the given id the active one. -/
def activateSubMap (c : SubmapCollection) (id : Nat) : SubmapCollection :=
  { c with active_id := id }

/-- `getIDs`: the ids of all submaps, in storage order. -/
def getIDs (c : SubmapCollection) : List Nat := c.submaps.map (fun s => s.id)

/-- `size`: the number of submaps. -/
def size (c : SubmapCollection) : Nat := c.submaps.length

/-- Modelled from the spec: `createNewSubMap(T)` — create a fresh submap at
pose `T` with a monotonically assigned id and make it active; returns the
new id. -/
def createNewSubMap (c : SubmapCollection) (T : Transformation) :
    SubmapCollection × Nat :=
  ({ submaps := c.submaps ++ [⟨c.next_id, T, []⟩],
     active_id := c.next_id,
     next_id := c.next_id + 1 }, c.next_id)

/-- Modelled from the spec: the external IntegrationEngine fusing one frame
into the active submap's volumetric payload. -/
def integrateIntoActive (c : SubmapCollection) (x : Nat) : SubmapCollection :=
  { c with submaps :=
      c.submaps.map (fun s =>
        if s.id == c.active_id then { s with payload := s.payload ++ [x] } else s) }

/-- `getProjectedMap`: modelled from the spec — the merged volumetric
representation spanning all current submaps. -/
def getProjectedMap (c : SubmapCollection) : Payload :=
  (c.submaps.map (fun s => s.payload)).flatten

end SubmapCollection

/-- `serializeSubmapToMsg`: modelled from the spec — content-preserving
serialization of a submap record into a wire message. -/
def serializeSubmapToMsg (s : TsdfSubmap) : SubmapMsg :=
  ⟨s.id, s.pose, s.payload⟩

/-- `deserializeMsgToSubmap`: modelled from the spec — decode the wire
message and merge it into the store, passing the decoded payload through
unchanged (merge semantics delegated to the store: overwrite-by-id or
append). -/
def deserializeMsgToSubmap (m : SubmapMsg) (c : SubmapCollection) :
    SubmapCollection :=
  if c.submaps.any (fun s => s.id == m.id) then
    { c with submaps :=
        c.submaps.map (fun s => if s.id == m.id then ⟨m.id, m.pose, m.payload⟩ else s) }
  else
    { c with submaps := c.submaps ++ [⟨m.id, m.pose, m.payload⟩],
             next_id := max c.next_id (m.id + 1) }

/-- Instrumentation events marking the two source lines that mutate
`num_integrated_frames_current_submap_`: the increment after an integration
(`submap_server.cc:242`) and the reset at submap creation
(`submap_server.cc:293`). -/
inductive Ev where
  | integrated : Ev
  | created : Ev
deriving DecidableEq

/-- The number of submap-creation events in a trace. -/
def createdCount (l : List Ev) : Nat :=
  (l.filter (fun e => e == Ev.created)).length

/-- A record-call event of `writeTimingToFile`: label, submap count,
wall-clock time. -/
structure TimingRecord where
  label : String
  count : Nat
  time : Time
deriving DecidableEq

/-- The state of one `SubmapServer` process: configuration read once at
startup, the mutable fields of the node, and observation logs (published
submap messages, file appends, timing record calls, overflow warnings,
counter-mutation events). -/
structure ServerState where
  world_frame : String
  min_time_between_msgs : Int
  num_integrated_frames_per_submap : Nat
  timing_path_name : String
  timing_time_id_name : String
  num_subscribers : Nat
  last_msg_time_ptcloud : Time
  pointcloud_queue : List PointcloudMsg
  submap_queue : List SubmapMsg
  collection : SubmapCollection
  num_integrated_frames_current_submap : Nat
  published : List (Bool × SubmapMsg)
  files : List (String × String)
  timing_records : List TimingRecord
  warnings : Nat
  events : List Ev
deriving DecidableEq

/-- Startup configuration (`getParametersFromRos` plus the session-start
identifier captured in the constructor and the subscriber count of the
submap publisher). -/
structure Config where
  world_frame : String
  min_time_between_msgs : Int
  num_integrated_frames_per_submap : Nat
  timing_path_name : String
  timing_time_id_name : String
  num_subscribers : Nat

/-- The server state right after the constructor ran: empty queues, empty
collection, zero frame counter, `last_msg_time_ptcloud_` default (time 0),
nothing published or written. -/
def initState (cfg : Config) : ServerState where
  world_frame := cfg.world_frame
  min_time_between_msgs := cfg.min_time_between_msgs
  num_integrated_frames_per_submap := cfg.num_integrated_frames_per_submap
  timing_path_name := cfg.timing_path_name
  timing_time_id_name := cfg.timing_time_id_name
  num_subscribers := cfg.num_subscribers
  last_msg_time_ptcloud := 0
  pointcloud_queue := []
  submap_queue := []
  collection := SubmapCollection.empty
  num_integrated_frames_current_submap := 0
  published := []
  files := []
  timing_records := []
  warnings := 0
  events := []

/-- The name of the network-timing file written by `writeTimingToFile`. -/
def networkFileName (path id : String) : String :=
  path ++ "network_timing_" ++ id ++ ".txt"

/-- The name of the process-timing file written by `writeTimingToFile`. -/
def processFileName (path id : String) : String :=
  path ++ "process_timing_" ++ id ++ ".txt"

/-- Modelled from the spec: the opaque profiling dump
`timing::Timing::Print()` appended to the process-timing file. -/
def timingPrint : String := "timing dump"

/-- `SubmapServer::writeTimingToFile` (`submap_server.cc:506`): when a
timing path is configured, append one line to the network-timing file and
one block to the process-timing file, both named with the session-start
identifier; otherwise leave the files untouched.  Every call is also logged
in `timing_records`. -/
def writeTimingToFile (s : ServerState) (str : String) (id : Nat)
    (time : Time) : ServerState :=
  let s := { s with timing_records := s.timing_records ++ [⟨str, id, time⟩] }
  if s.timing_path_name ≠ "" then
    { s with files := s.files
        ++ [(networkFileName s.timing_path_name s.timing_time_id_name,
             toString time ++ " " ++ toString id ++ " " ++ str ++ "\n"),
            (processFileName s.timing_path_name s.timing_time_id_name,
             str ++ " " ++ toString id ++ "\n" ++ timingPrint ++ "\n")] }
  else s

/-- `SubmapServer::publishSubmap` (`submap_server.cc:443`): publish a
submap message when the publisher has subscribers and the requested id
exists in the collection.  With `global_map` the message is a synthetic
submap with id 0, default (identity) pose and the projected whole map;
otherwise it is the serialization of the stored submap.  A successful
publish records a timing entry labelled "sent". -/
def publishSubmap (s : ServerState) (submap_id : Nat) (global_map : Bool)
    (now : Time) : ServerState :=
  if 0 < s.num_subscribers ∧ (s.collection.getSubMapConstPtrById submap_id).isSome then
    let submap_msg : SubmapMsg :=
      if global_map then
        ⟨0, Transformation.identity, s.collection.getProjectedMap⟩
      else
        match s.collection.getSubMapConstPtrById submap_id with
        | some sub => serializeSubmapToMsg sub
        | none => ⟨0, Transformation.identity, []⟩
    let s := { s with published := s.published ++ [(global_map, submap_msg)] }
    writeTimingToFile s "sent" s.collection.size now
  else s

/-- `SubmapServer::finishSubmap` (`submap_server.cc:274`): when an active
submap exists, finalize it and publish it through the non-global path. -/
def finishSubmap (s : ServerState) (now : Time) : ServerState :=
  if s.collection.existsId s.collection.getActiveSubMapID then
    publishSubmap s s.collection.getActiveSubMapID false now
  else s

/-- `SubmapServer::createNewSubMap` (`submap_server.cc:283`): finish the
previous submap, create and activate a fresh one, and reset the per-submap
frame counter to zero (recorded as an `Ev.created` event). -/
def createNewSubMap (s : ServerState) (T : Transformation) (now : Time) :
    ServerState :=
  let s := finishSubmap s now
  let c := (s.collection.createNewSubMap T).1
  { s with collection := c,
           num_integrated_frames_current_submap := 0,
           events := s.events ++ [Ev.created] }

/-- `SubmapServer::intializeMap` (`submap_server.cc:264`): just creates the
first submap. -/
def intializeMap (s : ServerState) (T : Transformation) (now : Time) :
    ServerState :=
  createNewSubMap s T now

/-- Modelled from the spec: `mapIntialized` (declared in the header, not in
this repository slice) — the map is initialized once the first submap
exists. -/
def mapIntialized (s : ServerState) : Bool :=
  !s.collection.submaps.isEmpty

/-- `SubmapServer::integratePointcloud` (`submap_server.cc:254`): hand the
frame to the external integrator targeting the active submap. -/
def integratePointcloud (s : ServerState) (msg : PointcloudMsg) : ServerState :=
  { s with collection := s.collection.integrateIntoActive msg.seq }

/-- `SubmapServer::processPointCloudMessageAndInsert`
(`submap_server.cc:222`): initialize the map on the first frame, integrate
the frame, and increment the per-submap frame counter (recorded as an
`Ev.integrated` event). -/
def processPointCloudMessageAndInsert (s : ServerState) (msg : PointcloudMsg)
    (T : Transformation) (now : Time) : ServerState :=
  let s := if mapIntialized s then s else intializeMap s T now
  let s := integratePointcloud s msg
  { s with num_integrated_frames_current_submap :=
             s.num_integrated_frames_current_submap + 1,
           events := s.events ++ [Ev.integrated] }

/-- `SubmapServer::newSubmapRequired` (`submap_server.cc:269`): a new submap
is required once the frame counter strictly exceeds the threshold. -/
def newSubmapRequired (s : ServerState) : Bool :=
  decide (s.num_integrated_frames_per_submap <
    s.num_integrated_frames_current_submap)

/-- The bound `kMaxQueueSize` of `getNextPointcloudFromQueue`. -/
def kMaxQueueSize : Nat := 10

/-- The overflow loop `while (queue->size() >= kMaxQueueSize) queue->pop();`
of `getNextPointcloudFromQueue` (`submap_server.cc:214`). -/
def popWhileFull : List PointcloudMsg → List PointcloudMsg
  | [] => []
  | m :: rest =>
    if kMaxQueueSize ≤ (m :: rest).length then popWhileFull rest else m :: rest

/-- `SubmapServer::getNextPointcloudFromQueue` (`submap_server.cc:195`):
inspect the front entry; if its transform resolves, pop and return it;
otherwise leave the queue alone unless it has reached the bound, in which
case pop entries until it is below the bound and warn.  Returns the
dequeued entry (if any), the updated queue, and whether the overflow
warning fired. -/
def getNextPointcloudFromQueue
    (lookupTransform : PointcloudMsg → Option Transformation)
    (queue : List PointcloudMsg) :
    Option (PointcloudMsg × Transformation) × List PointcloudMsg × Bool :=
  match queue with
  | [] => (none, [], false)
  | m :: rest =>
    match lookupTransform m with
    | some T => (some (m, T), rest, false)
    | none =>
      if kMaxQueueSize ≤ (m :: rest).length then
        (none, popWhileFull (m :: rest), true)
      else
        (none, m :: rest, false)

/-- The body of one iteration of the drain loop in
`servicePointcloudQueue` (`submap_server.cc:168`): process the dequeued
frame and, when a new submap is required, roll over. -/
def processAndRollover (s : ServerState) (msg : PointcloudMsg)
    (T : Transformation) (now : Time) : ServerState :=
  let s := processPointCloudMessageAndInsert s msg T now
  if newSubmapRequired s then createNewSubMap s T now else s

/-- The drain loop of `SubmapServer::servicePointcloudQueue`
(`submap_server.cc:162`), written with explicit fuel.  Each successful
drain removes exactly one entry from the queue, so with fuel exceeding the
queue length the fuel never runs out and the function agrees with the
unbounded `while` loop of the source (`serviceLoop_fuel` below). -/
def serviceLoop (lookupTransform : PointcloudMsg → Option Transformation)
    (now : Time) : Nat → ServerState → ServerState
  | 0, s => s
  | fuel + 1, s =>
    match getNextPointcloudFromQueue lookupTransform s.pointcloud_queue with
    | (some (m, T), q1, _) =>
      serviceLoop lookupTransform now fuel
        (processAndRollover { s with pointcloud_queue := q1 } m T now)
    | (none, q1, warned) =>
      { s with pointcloud_queue := q1,
               warnings := s.warnings + (if warned then 1 else 0) }

/-- `SubmapServer::servicePointcloudQueue`: drain the queue until the next
frame is unavailable (empty queue or unresolved transform). -/
def servicePointcloudQueue
    (lookupTransform : PointcloudMsg → Option Transformation) (now : Time)
    (s : ServerState) : ServerState :=
  serviceLoop lookupTransform now (s.pointcloud_queue.length + 1) s

/-- `SubmapServer::addMesageToPointcloudQueue` (`submap_server.cc:152`):
push the message only when its stamp exceeds the stamp of the last accepted
message by more than the configured minimum interval. -/
def addMesageToPointcloudQueue (s : ServerState) (msg : PointcloudMsg) :
    ServerState :=
  if s.min_time_between_msgs < msg.stamp - s.last_msg_time_ptcloud then
    { s with last_msg_time_ptcloud := msg.stamp,
             pointcloud_queue := s.pointcloud_queue ++ [msg] }
  else s

/-- `SubmapServer::pointcloudCallback` (`submap_server.cc:144`): enqueue the
message, then service the queue. -/
def pointcloudCallback
    (lookupTransform : PointcloudMsg → Option Transformation)
    (msg : PointcloudMsg) (now : Time) (s : ServerState) : ServerState :=
  servicePointcloudQueue lookupTransform now (addMesageToPointcloudQueue s msg)

/-- `SubmapServer::visualizeWholeMap` (`submap_server.cc:324`): activate
each stored submap in turn and publish it through the non-global path (the
mesh visualization in the loop body goes to a separate marker topic and is
out of scope). -/
def visualizeWholeMap (s : ServerState) (now : Time) : ServerState :=
  s.collection.getIDs.foldl
    (fun s id =>
      publishSubmap { s with collection := s.collection.activateSubMap id }
        id false now)
    s

/-- `SubmapServer::loadMap` (`submap_server.cc:409`): replace the collection
on success and re-publish the whole map; then — outside the success branch —
publish the active submap as the global map.  The outcome of the external
`io::LoadSubmapCollection` is a parameter: `some c` for a successful load
of collection `c`, `none` for failure (which leaves the collection
unchanged). -/
def loadMap (s : ServerState) (load_result : Option SubmapCollection)
    (now : Time) : Bool × ServerState :=
  let (success, s1) :=
    match load_result with
    | some c => (true, visualizeWholeMap { s with collection := c } now)
    | none => (false, s)
  (success, publishSubmap s1 s1.collection.getActiveSubMapID true now)

/-- `SubmapServer::SubmapCallback` (`submap_server.cc:492`): push the
inbound message, merge the front of the queue into the collection, pop, and
record a "received" timing entry (with the wall time captured at entry and
the collection size after the merge). -/
def SubmapCallback (s : ServerState) (msg : SubmapMsg) (now : Time) :
    ServerState :=
  let q1 := s.submap_queue ++ [msg]
  match q1 with
  | [] => s
  | front :: rest =>
    let s := { s with collection := deserializeMsgToSubmap front s.collection,
                      submap_queue := rest }
    writeTimingToFile s "received" s.collection.size now

/-- One invocation of an entry point of the single-threaded dispatcher.
Frame arrival carries the transform-resolver behaviour at the time of the
callback; load carries the outcome of the external loader.  `saveMap` and
the mesh-timer event do not touch the modelled state (saving and mesh
visualization are external I/O). -/
inductive Callback where
  | pointcloud (lookupTransform : PointcloudMsg → Option Transformation)
      (msg : PointcloudMsg) (now : Time) : Callback
  | submapIn (msg : SubmapMsg) (now : Time) : Callback
  | load (load_result : Option SubmapCollection) (now : Time) : Callback
  | saveMap : Callback
  | meshTimer : Callback

/-- Dispatch one callback. -/
def applyCallback (s : ServerState) : Callback → ServerState
  | Callback.pointcloud lookupTransform msg now =>
    pointcloudCallback lookupTransform msg now s
  | Callback.submapIn msg now => SubmapCallback s msg now
  | Callback.load load_result now => (loadMap s load_result now).2
  | Callback.saveMap => s
  | Callback.meshTimer => s

/-- Run a sequence of callbacks from a given state. -/
def runCallbacks (ops : List Callback) (s : ServerState) : ServerState :=
  ops.foldl applyCallback s

/-- The effect of one counter-mutation event on the frame counter: a
creation resets it to zero, an integration increments it. -/
def evStep (c : Nat) : Ev → Nat
  | Ev.created => 0
  | Ev.integrated => c + 1

/-- The frame-counter value determined by a trace of counter-mutation
events. -/
def counterOfEvents (l : List Ev) : Nat := l.foldl evStep 0

/-- All file appends of a state go to the two timing files named with the
state's current timing path and session-start identifier. -/
def filesWellNamed (s : ServerState) : Prop :=
  ∀ p ∈ s.files,
    p.1 = networkFileName s.timing_path_name s.timing_time_id_name ∨
    p.1 = processFileName s.timing_path_name s.timing_time_id_name

/-- The throttle decisions `addMesageToPointcloudQueue` takes on a sequence
of arriving frames: `true` means the frame is accepted (pushed). -/
def throttleDecisions (s : ServerState) : List PointcloudMsg → List Bool
  | [] => []
  | m :: ms =>
    decide (s.min_time_between_msgs < m.stamp - s.last_msg_time_ptcloud) ::
      throttleDecisions (addMesageToPointcloudQueue s m) ms

/-- The linkage between the frame counter and the counter-mutation trace. -/
def counterInv (s : ServerState) : Prop :=
  s.num_integrated_frames_current_submap = counterOfEvents s.events

/-! ### Concrete fixtures used by witnesses and counterexamples -/

/-- A frame stamped `i` nanoseconds with arrival identity `i`. -/
def mkMsg (i : Nat) : PointcloudMsg := ⟨(i : Int), "cam", i⟩

/-- A transform resolver that never resolves. -/
def noTransform : PointcloudMsg → Option Transformation := fun _ => none

/-- A transform resolver that always resolves to the identity. -/
def allTransforms : PointcloudMsg → Option Transformation :=
  fun _ => some Transformation.identity

/-- A queue holding exactly `kMaxQueueSize` (ten) frames. -/
def q10 : List PointcloudMsg := (List.range 10).map mkMsg

/-- Configuration: no throttling, threshold 5, no timing path, no
subscribers. -/
def cfgA : Config := ⟨"world", 0, 5, "", "session", 0⟩

/-- Configuration: 0.5 s minimum interval between messages. -/
def cfg05 : Config := ⟨"world", 500000000, 5, "", "session", 0⟩

/-- Frames stamped 0.0 s, 0.3 s and 0.6 s. -/
def m00 : PointcloudMsg := ⟨0, "cam", 0⟩

/-- See `m00`. -/
def m03 : PointcloudMsg := ⟨300000000, "cam", 1⟩

/-- See `m00`. -/
def m06 : PointcloudMsg := ⟨600000000, "cam", 2⟩

/-- `n` frame-arrival callbacks with stamps 1..n and resolvable
transforms. -/
def framesN (n : Nat) : List Callback :=
  (List.range n).map (fun i =>
    Callback.pointcloud allTransforms (mkMsg (i + 1)) ((i : Int) + 1))

/-- The server state after five integrated frames under `cfgA`. -/
def s5 : ServerState := runCallbacks (framesN 5) (initState cfgA)

/-- A freshly started server with one subscriber and an empty collection. -/
def sEmptyWithSub : ServerState := initState ⟨"world", 0, 5, "", "session", 1⟩

/-- A collection holding three submaps (ids 0, 1, 2; the last is active). -/
def c3sub : SubmapCollection :=
  ⟨[⟨0, Transformation.identity, [1]⟩, ⟨1, Transformation.identity, [2]⟩,
    ⟨2, Transformation.identity, [3]⟩], 2, 3⟩

/-- A server with one subscriber holding the three submaps of `c3sub`. -/
def sThreeSubs : ServerState :=
  { initState ⟨"world", 0, 5, "", "session", 1⟩ with collection := c3sub }

/-- A server with NO subscribers holding the three submaps of `c3sub`. -/
def sThreeSubsNoSub : ServerState :=
  { initState cfgA with collection := c3sub }

/-- An inbound submap wire message. -/
def inMsg : SubmapMsg := ⟨5, Transformation.identity, [9]⟩

/-- Configuration with a timing-log path configured. -/
def cfgT : Config := ⟨"world", 0, 5, "/logs/", "sessid", 1⟩

/-! ### Lemmas about the overflow loop and the drain function -/

theorem popWhileFull_suffix (q : List PointcloudMsg) :
    (popWhileFull q).IsSuffix q := by
  induction q with
  | nil => exact List.suffix_rfl
  | cons m rest ih =>
    rw [popWhileFull]
    split
    · exact ih.trans (List.suffix_cons m rest)
    · exact List.suffix_rfl

theorem popWhileFull_length_le (q : List PointcloudMsg) :
    (popWhileFull q).length ≤ kMaxQueueSize - 1 := by
  induction q with
  | nil => simp [popWhileFull, kMaxQueueSize]
  | cons m rest ih =>
    rw [popWhileFull]
    split
    · exact ih
    · omega

theorem popWhileFull_length_of_ge (q : List PointcloudMsg)
    (h : kMaxQueueSize - 1 ≤ q.length) :
    (popWhileFull q).length = kMaxQueueSize - 1 := by
  induction q with
  | nil => simp [kMaxQueueSize] at h
  | cons m rest ih =>
    rw [popWhileFull]
    split
    · rename_i hfull
      simp only [List.length_cons, kMaxQueueSize] at hfull
      exact ih (by simp [kMaxQueueSize]; omega)
    · rename_i hfull
      simp only [List.length_cons, kMaxQueueSize, not_le] at hfull h ⊢
      omega

theorem getNext_suffix (lookupTransform : PointcloudMsg → Option Transformation)
    (q : List PointcloudMsg) :
    ((getNextPointcloudFromQueue lookupTransform q).2.1).IsSuffix q := by
  match q with
  | [] => exact List.suffix_rfl
  | m :: rest =>
    rw [getNextPointcloudFromQueue]
    match h : lookupTransform m with
    | some T => exact List.suffix_cons m rest
    | none =>
      simp only
      split
      · exact popWhileFull_suffix (m :: rest)
      · exact List.suffix_rfl

theorem getNext_some (lookupTransform : PointcloudMsg → Option Transformation)
    (q : List PointcloudMsg) (m : PointcloudMsg) (T : Transformation)
    (h : (getNextPointcloudFromQueue lookupTransform q).1 = some (m, T)) :
    q.head? = some m ∧
      (getNextPointcloudFromQueue lookupTransform q).2.1 = q.tail := by
  cases q with
  | nil => simp [getNextPointcloudFromQueue] at h
  | cons m' rest =>
    cases hlk : lookupTransform m' with
    | some T' =>
      simp only [getNextPointcloudFromQueue, hlk] at h ⊢
      simp at h ⊢
      exact h.1
    | none =>
      simp only [getNextPointcloudFromQueue, hlk] at h
      split at h <;> simp at h

theorem getNext_none_length
    (lookupTransform : PointcloudMsg → Option Transformation)
    (q : List PointcloudMsg) (hlen : q.length ≤ kMaxQueueSize)
    (h : (getNextPointcloudFromQueue lookupTransform q).1 = none) :
    ((getNextPointcloudFromQueue lookupTransform q).2.1).length ≤
      kMaxQueueSize - 1 := by
  cases q with
  | nil => simp [getNextPointcloudFromQueue, kMaxQueueSize]
  | cons m rest =>
    cases hlk : lookupTransform m with
    | some T => simp only [getNextPointcloudFromQueue, hlk] at h; simp at h
    | none =>
      simp only [getNextPointcloudFromQueue, hlk]
      split
      · exact popWhileFull_length_le (m :: rest)
      · rename_i hfull
        simp only [List.length_cons, kMaxQueueSize, not_le] at hfull hlen ⊢
        omega

/-! ### Frame lemmas: which fields each operation leaves unchanged -/

@[simp]
theorem writeTimingToFile_pointcloud_queue (s : ServerState) (a : String)
    (b : Nat) (c : Time) :
    (writeTimingToFile s a b c).pointcloud_queue = s.pointcloud_queue := by
  by_cases hcase : s.timing_path_name = "" <;> simp [writeTimingToFile, hcase]

@[simp]
theorem writeTimingToFile_submap_queue (s : ServerState) (a : String)
    (b : Nat) (c : Time) :
    (writeTimingToFile s a b c).submap_queue = s.submap_queue := by
  by_cases hcase : s.timing_path_name = "" <;> simp [writeTimingToFile, hcase]

@[simp]
theorem writeTimingToFile_counter (s : ServerState) (a : String) (b : Nat)
    (c : Time) :
    (writeTimingToFile s a b c).num_integrated_frames_current_submap =
      s.num_integrated_frames_current_submap := by
  by_cases hcase : s.timing_path_name = "" <;> simp [writeTimingToFile, hcase]

@[simp]
theorem writeTimingToFile_events (s : ServerState) (a : String) (b : Nat)
    (c : Time) : (writeTimingToFile s a b c).events = s.events := by
  by_cases hcase : s.timing_path_name = "" <;> simp [writeTimingToFile, hcase]

@[simp]
theorem writeTimingToFile_collection (s : ServerState) (a : String) (b : Nat)
    (c : Time) : (writeTimingToFile s a b c).collection = s.collection := by
  by_cases hcase : s.timing_path_name = "" <;> simp [writeTimingToFile, hcase]

@[simp]
theorem writeTimingToFile_path (s : ServerState) (a : String) (b : Nat)
    (c : Time) :
    (writeTimingToFile s a b c).timing_path_name = s.timing_path_name := by
  by_cases hcase : s.timing_path_name = "" <;> simp [writeTimingToFile, hcase]

@[simp]
theorem writeTimingToFile_tid (s : ServerState) (a : String) (b : Nat)
    (c : Time) :
    (writeTimingToFile s a b c).timing_time_id_name = s.timing_time_id_name := by
  by_cases hcase : s.timing_path_name = "" <;> simp [writeTimingToFile, hcase]

@[simp]
theorem writeTimingToFile_subscribers (s : ServerState) (a : String) (b : Nat)
    (c : Time) :
    (writeTimingToFile s a b c).num_subscribers = s.num_subscribers := by
  by_cases hcase : s.timing_path_name = "" <;> simp [writeTimingToFile, hcase]

@[simp]
theorem writeTimingToFile_published (s : ServerState) (a : String) (b : Nat)
    (c : Time) : (writeTimingToFile s a b c).published = s.published := by
  by_cases hcase : s.timing_path_name = "" <;> simp [writeTimingToFile, hcase]

theorem writeTimingToFile_filesWellNamed (s : ServerState) (a : String)
    (b : Nat) (c : Time) (h : filesWellNamed s) :
    filesWellNamed (writeTimingToFile s a b c) := by
  intro p hp
  rw [writeTimingToFile_path, writeTimingToFile_tid]
  by_cases hcase : s.timing_path_name = ""
  · simp only [writeTimingToFile, hcase, ne_eq, not_true_eq_false,
      if_false] at hp
    exact h p hp
  · simp only [writeTimingToFile, if_pos (by simpa using hcase), ne_eq,
      List.mem_append] at hp
    rcases hp with hp | hp
    · exact h p hp
    · simp at hp
      rcases hp with hp | hp <;> simp [hp]

@[simp]
theorem publishSubmap_pointcloud_queue (s : ServerState) (i : Nat) (g : Bool)
    (t : Time) :
    (publishSubmap s i g t).pointcloud_queue = s.pointcloud_queue := by
  unfold publishSubmap; split <;> simp

@[simp]
theorem publishSubmap_submap_queue (s : ServerState) (i : Nat) (g : Bool)
    (t : Time) : (publishSubmap s i g t).submap_queue = s.submap_queue := by
  unfold publishSubmap; split <;> simp

@[simp]
theorem publishSubmap_counter (s : ServerState) (i : Nat) (g : Bool)
    (t : Time) :
    (publishSubmap s i g t).num_integrated_frames_current_submap =
      s.num_integrated_frames_current_submap := by
  unfold publishSubmap; split <;> simp

@[simp]
theorem publishSubmap_events (s : ServerState) (i : Nat) (g : Bool)
    (t : Time) : (publishSubmap s i g t).events = s.events := by
  unfold publishSubmap; split <;> simp

@[simp]
theorem publishSubmap_collection (s : ServerState) (i : Nat) (g : Bool)
    (t : Time) : (publishSubmap s i g t).collection = s.collection := by
  unfold publishSubmap; split <;> simp

@[simp]
theorem publishSubmap_path (s : ServerState) (i : Nat) (g : Bool) (t : Time) :
    (publishSubmap s i g t).timing_path_name = s.timing_path_name := by
  unfold publishSubmap; split <;> simp

@[simp]
theorem publishSubmap_tid (s : ServerState) (i : Nat) (g : Bool) (t : Time) :
    (publishSubmap s i g t).timing_time_id_name = s.timing_time_id_name := by
  unfold publishSubmap; split <;> simp

@[simp]
theorem publishSubmap_subscribers (s : ServerState) (i : Nat) (g : Bool)
    (t : Time) : (publishSubmap s i g t).num_subscribers = s.num_subscribers := by
  unfold publishSubmap; split <;> simp

theorem publishSubmap_filesWellNamed (s : ServerState) (i : Nat) (g : Bool)
    (t : Time) (h : filesWellNamed s) : filesWellNamed (publishSubmap s i g t) := by
  unfold publishSubmap
  split
  · exact writeTimingToFile_filesWellNamed _ _ _ _ (fun p hp => h p hp)
  · exact h

@[simp]
theorem finishSubmap_pointcloud_queue (s : ServerState) (t : Time) :
    (finishSubmap s t).pointcloud_queue = s.pointcloud_queue := by
  unfold finishSubmap; split <;> simp

@[simp]
theorem finishSubmap_submap_queue (s : ServerState) (t : Time) :
    (finishSubmap s t).submap_queue = s.submap_queue := by
  unfold finishSubmap; split <;> simp

@[simp]
theorem finishSubmap_counter (s : ServerState) (t : Time) :
    (finishSubmap s t).num_integrated_frames_current_submap =
      s.num_integrated_frames_current_submap := by
  unfold finishSubmap; split <;> simp

@[simp]
theorem finishSubmap_events (s : ServerState) (t : Time) :
    (finishSubmap s t).events = s.events := by
  unfold finishSubmap; split <;> simp

@[simp]
theorem finishSubmap_collection (s : ServerState) (t : Time) :
    (finishSubmap s t).collection = s.collection := by
  unfold finishSubmap; split <;> simp

@[simp]
theorem finishSubmap_path (s : ServerState) (t : Time) :
    (finishSubmap s t).timing_path_name = s.timing_path_name := by
  unfold finishSubmap; split <;> simp

@[simp]
theorem finishSubmap_tid (s : ServerState) (t : Time) :
    (finishSubmap s t).timing_time_id_name = s.timing_time_id_name := by
  unfold finishSubmap; split <;> simp

@[simp]
theorem finishSubmap_subscribers (s : ServerState) (t : Time) :
    (finishSubmap s t).num_subscribers = s.num_subscribers := by
  unfold finishSubmap; split <;> simp

theorem finishSubmap_filesWellNamed (s : ServerState) (t : Time)
    (h : filesWellNamed s) : filesWellNamed (finishSubmap s t) := by
  unfold finishSubmap
  split
  · exact publishSubmap_filesWellNamed _ _ _ _ h
  · exact h

@[simp]
theorem createNewSubMap_pointcloud_queue (s : ServerState)
    (T : Transformation) (t : Time) :
    (createNewSubMap s T t).pointcloud_queue = s.pointcloud_queue := by
  simp [createNewSubMap]

@[simp]
theorem createNewSubMap_submap_queue (s : ServerState) (T : Transformation)
    (t : Time) : (createNewSubMap s T t).submap_queue = s.submap_queue := by
  simp [createNewSubMap]

@[simp]
theorem createNewSubMap_counter (s : ServerState) (T : Transformation)
    (t : Time) :
    (createNewSubMap s T t).num_integrated_frames_current_submap = 0 := by
  simp [createNewSubMap]

@[simp]
theorem createNewSubMap_events (s : ServerState) (T : Transformation)
    (t : Time) : (createNewSubMap s T t).events = s.events ++ [Ev.created] := by
  simp [createNewSubMap]

@[simp]
theorem createNewSubMap_path (s : ServerState) (T : Transformation)
    (t : Time) : (createNewSubMap s T t).timing_path_name = s.timing_path_name := by
  simp [createNewSubMap]

@[simp]
theorem createNewSubMap_tid (s : ServerState) (T : Transformation)
    (t : Time) :
    (createNewSubMap s T t).timing_time_id_name = s.timing_time_id_name := by
  simp [createNewSubMap]

@[simp]
theorem createNewSubMap_subscribers (s : ServerState) (T : Transformation)
    (t : Time) : (createNewSubMap s T t).num_subscribers = s.num_subscribers := by
  simp [createNewSubMap]

theorem createNewSubMap_filesWellNamed (s : ServerState) (T : Transformation)
    (t : Time) (h : filesWellNamed s) : filesWellNamed (createNewSubMap s T t) := by
  intro p hp
  simp only [createNewSubMap] at hp
  have h2 := finishSubmap_filesWellNamed s t h
  have := h2 p (by simpa using hp)
  simpa using this

@[simp]
theorem processPointCloud_pointcloud_queue (s : ServerState)
    (m : PointcloudMsg) (T : Transformation) (t : Time) :
    (processPointCloudMessageAndInsert s m T t).pointcloud_queue =
      s.pointcloud_queue := by
  simp only [processPointCloudMessageAndInsert, integratePointcloud,
    intializeMap]
  split <;> simp

@[simp]
theorem processPointCloud_submap_queue (s : ServerState) (m : PointcloudMsg)
    (T : Transformation) (t : Time) :
    (processPointCloudMessageAndInsert s m T t).submap_queue =
      s.submap_queue := by
  simp only [processPointCloudMessageAndInsert, integratePointcloud,
    intializeMap]
  split <;> simp

@[simp]
theorem processPointCloud_path (s : ServerState) (m : PointcloudMsg)
    (T : Transformation) (t : Time) :
    (processPointCloudMessageAndInsert s m T t).timing_path_name =
      s.timing_path_name := by
  simp only [processPointCloudMessageAndInsert, integratePointcloud,
    intializeMap]
  split <;> simp

@[simp]
theorem processPointCloud_tid (s : ServerState) (m : PointcloudMsg)
    (T : Transformation) (t : Time) :
    (processPointCloudMessageAndInsert s m T t).timing_time_id_name =
      s.timing_time_id_name := by
  simp only [processPointCloudMessageAndInsert, integratePointcloud,
    intializeMap]
  split <;> simp

@[simp]
theorem processPointCloud_subscribers (s : ServerState) (m : PointcloudMsg)
    (T : Transformation) (t : Time) :
    (processPointCloudMessageAndInsert s m T t).num_subscribers =
      s.num_subscribers := by
  simp only [processPointCloudMessageAndInsert, integratePointcloud,
    intializeMap]
  split <;> simp

theorem processPointCloud_filesWellNamed (s : ServerState)
    (m : PointcloudMsg) (T : Transformation) (t : Time)
    (h : filesWellNamed s) :
    filesWellNamed (processPointCloudMessageAndInsert s m T t) := by
  intro p hp
  rw [processPointCloud_path, processPointCloud_tid]
  by_cases hi : mapIntialized s
  · simp only [processPointCloudMessageAndInsert, integratePointcloud, hi,
      if_true] at hp
    exact h p (by simpa using hp)
  · simp only [processPointCloudMessageAndInsert, integratePointcloud, hi,
      Bool.false_eq_true, if_false, intializeMap] at hp
    have h2 := createNewSubMap_filesWellNamed s T t h
    have := h2 p (by simpa using hp)
    simpa using this

theorem processPointCloud_counter_init (s : ServerState) (m : PointcloudMsg)
    (T : Transformation) (t : Time) (h : mapIntialized s = true) :
    (processPointCloudMessageAndInsert s m T t).num_integrated_frames_current_submap =
        s.num_integrated_frames_current_submap + 1 ∧
      (processPointCloudMessageAndInsert s m T t).events =
        s.events ++ [Ev.integrated] := by
  simp [processPointCloudMessageAndInsert, integratePointcloud, h]

theorem processPointCloud_counter_uninit (s : ServerState)
    (m : PointcloudMsg) (T : Transformation) (t : Time)
    (h : mapIntialized s = false) :
    (processPointCloudMessageAndInsert s m T t).num_integrated_frames_current_submap = 1 ∧
      (processPointCloudMessageAndInsert s m T t).events =
        s.events ++ [Ev.created, Ev.integrated] := by
  simp [processPointCloudMessageAndInsert, integratePointcloud, intializeMap, h]

@[simp]
theorem processAndRollover_pointcloud_queue (s : ServerState)
    (m : PointcloudMsg) (T : Transformation) (t : Time) :
    (processAndRollover s m T t).pointcloud_queue = s.pointcloud_queue := by
  simp only [processAndRollover]; split <;> simp

@[simp]
theorem processAndRollover_submap_queue (s : ServerState) (m : PointcloudMsg)
    (T : Transformation) (t : Time) :
    (processAndRollover s m T t).submap_queue = s.submap_queue := by
  simp only [processAndRollover]; split <;> simp

@[simp]
theorem processAndRollover_path (s : ServerState) (m : PointcloudMsg)
    (T : Transformation) (t : Time) :
    (processAndRollover s m T t).timing_path_name = s.timing_path_name := by
  simp only [processAndRollover]; split <;> simp

@[simp]
theorem processAndRollover_tid (s : ServerState) (m : PointcloudMsg)
    (T : Transformation) (t : Time) :
    (processAndRollover s m T t).timing_time_id_name = s.timing_time_id_name := by
  simp only [processAndRollover]; split <;> simp

theorem processAndRollover_filesWellNamed (s : ServerState)
    (m : PointcloudMsg) (T : Transformation) (t : Time)
    (h : filesWellNamed s) : filesWellNamed (processAndRollover s m T t) := by
  simp only [processAndRollover]
  split
  · exact createNewSubMap_filesWellNamed _ _ _
      (processPointCloud_filesWellNamed _ _ _ _ h)
  · exact processPointCloud_filesWellNamed _ _ _ _ h

@[simp]
theorem addMesage_submap_queue (s : ServerState) (m : PointcloudMsg) :
    (addMesageToPointcloudQueue s m).submap_queue = s.submap_queue := by
  unfold addMesageToPointcloudQueue; split <;> rfl

@[simp]
theorem addMesage_counter (s : ServerState) (m : PointcloudMsg) :
    (addMesageToPointcloudQueue s m).num_integrated_frames_current_submap =
      s.num_integrated_frames_current_submap := by
  unfold addMesageToPointcloudQueue; split <;> rfl

@[simp]
theorem addMesage_events (s : ServerState) (m : PointcloudMsg) :
    (addMesageToPointcloudQueue s m).events = s.events := by
  unfold addMesageToPointcloudQueue; split <;> rfl

@[simp]
theorem addMesage_path (s : ServerState) (m : PointcloudMsg) :
    (addMesageToPointcloudQueue s m).timing_path_name = s.timing_path_name := by
  unfold addMesageToPointcloudQueue; split <;> rfl

@[simp]
theorem addMesage_tid (s : ServerState) (m : PointcloudMsg) :
    (addMesageToPointcloudQueue s m).timing_time_id_name =
      s.timing_time_id_name := by
  unfold addMesageToPointcloudQueue; split <;> rfl

@[simp]
theorem addMesage_files (s : ServerState) (m : PointcloudMsg) :
    (addMesageToPointcloudQueue s m).files = s.files := by
  unfold addMesageToPointcloudQueue; split <;> rfl

theorem addMesage_queue_length (s : ServerState) (m : PointcloudMsg) :
    (addMesageToPointcloudQueue s m).pointcloud_queue.length ≤
      s.pointcloud_queue.length + 1 := by
  unfold addMesageToPointcloudQueue; split <;> simp

@[simp]
theorem SubmapCallback_pointcloud_queue (s : ServerState) (m : SubmapMsg)
    (t : Time) : (SubmapCallback s m t).pointcloud_queue = s.pointcloud_queue := by
  simp only [SubmapCallback]
  split <;> simp

@[simp]
theorem SubmapCallback_counter (s : ServerState) (m : SubmapMsg) (t : Time) :
    (SubmapCallback s m t).num_integrated_frames_current_submap =
      s.num_integrated_frames_current_submap := by
  simp only [SubmapCallback]
  split <;> simp

@[simp]
theorem SubmapCallback_events (s : ServerState) (m : SubmapMsg) (t : Time) :
    (SubmapCallback s m t).events = s.events := by
  simp only [SubmapCallback]
  split <;> simp

@[simp]
theorem SubmapCallback_path (s : ServerState) (m : SubmapMsg) (t : Time) :
    (SubmapCallback s m t).timing_path_name = s.timing_path_name := by
  simp only [SubmapCallback]
  split <;> simp

@[simp]
theorem SubmapCallback_tid (s : ServerState) (m : SubmapMsg) (t : Time) :
    (SubmapCallback s m t).timing_time_id_name = s.timing_time_id_name := by
  simp only [SubmapCallback]
  split <;> simp

theorem SubmapCallback_filesWellNamed (s : ServerState) (m : SubmapMsg)
    (t : Time) (h : filesWellNamed s) : filesWellNamed (SubmapCallback s m t) := by
  intro p hp
  rw [SubmapCallback_path, SubmapCallback_tid]
  simp only [SubmapCallback] at hp
  split at hp
  · exact h p hp
  · rename_i q1 front rest heq
    have h3 := writeTimingToFile_filesWellNamed
      { s with collection := deserializeMsgToSubmap front s.collection,
               submap_queue := rest }
      "received" (deserializeMsgToSubmap front s.collection).size t
      (fun q hq => h q hq) p hp
    rw [writeTimingToFile_path, writeTimingToFile_tid] at h3
    exact h3

/-! ### The drain loop: fuel adequacy and invariants -/

theorem getNext_some_length
    (lookupTransform : PointcloudMsg → Option Transformation)
    (q : List PointcloudMsg) (m : PointcloudMsg) (T : Transformation)
    (h : (getNextPointcloudFromQueue lookupTransform q).1 = some (m, T)) :
    ((getNextPointcloudFromQueue lookupTransform q).2.1).length + 1 =
      q.length := by
  obtain ⟨hhead, htail⟩ := getNext_some lookupTransform q m T h
  cases q with
  | nil => simp at hhead
  | cons m' rest => simp [htail]

/-- The fuel given to `serviceLoop` is irrelevant as long as it exceeds the
queue length: the fuelled loop computes the source's unbounded `while`
loop. -/
theorem serviceLoop_fuel
    (lookupTransform : PointcloudMsg → Option Transformation) (t : Time) :
    ∀ fuel fuel' : Nat, ∀ s : ServerState,
      s.pointcloud_queue.length < fuel → s.pointcloud_queue.length < fuel' →
      serviceLoop lookupTransform t fuel s =
        serviceLoop lookupTransform t fuel' s := by
  intro fuel
  induction fuel with
  | zero => intro fuel' s h _; omega
  | succ n ih =>
    intro fuel' s h h'
    cases fuel' with
    | zero => omega
    | succ n' =>
      rw [serviceLoop, serviceLoop]
      cases hg : getNextPointcloudFromQueue lookupTransform s.pointcloud_queue with
      | mk fst snd =>
        cases fst with
        | none => rfl
        | some mT =>
          obtain ⟨m, T⟩ := mT
          simp only
          have hlen := getNext_some_length lookupTransform s.pointcloud_queue
            m T (by rw [hg])
          rw [hg] at hlen
          dsimp only at hlen
          apply ih
          · simp only [processAndRollover_pointcloud_queue]
            omega
          · simp only [processAndRollover_pointcloud_queue]
            omega

theorem serviceLoop_submap_queue
    (lookupTransform : PointcloudMsg → Option Transformation) (t : Time) :
    ∀ (fuel : Nat) (s : ServerState),
      (serviceLoop lookupTransform t fuel s).submap_queue = s.submap_queue := by
  intro fuel
  induction fuel with
  | zero => intro s; rfl
  | succ n ih =>
    intro s
    rw [serviceLoop]
    cases hg : getNextPointcloudFromQueue lookupTransform s.pointcloud_queue with
    | mk fst snd =>
      cases fst with
      | none => rfl
      | some mT =>
        obtain ⟨m, T⟩ := mT
        simp only
        rw [ih]
        simp

theorem serviceLoop_path
    (lookupTransform : PointcloudMsg → Option Transformation) (t : Time) :
    ∀ (fuel : Nat) (s : ServerState),
      (serviceLoop lookupTransform t fuel s).timing_path_name =
        s.timing_path_name := by
  intro fuel
  induction fuel with
  | zero => intro s; rfl
  | succ n ih =>
    intro s
    rw [serviceLoop]
    cases hg : getNextPointcloudFromQueue lookupTransform s.pointcloud_queue with
    | mk fst snd =>
      cases fst with
      | none => rfl
      | some mT =>
        obtain ⟨m, T⟩ := mT
        simp only
        rw [ih]
        simp

theorem serviceLoop_tid
    (lookupTransform : PointcloudMsg → Option Transformation) (t : Time) :
    ∀ (fuel : Nat) (s : ServerState),
      (serviceLoop lookupTransform t fuel s).timing_time_id_name =
        s.timing_time_id_name := by
  intro fuel
  induction fuel with
  | zero => intro s; rfl
  | succ n ih =>
    intro s
    rw [serviceLoop]
    cases hg : getNextPointcloudFromQueue lookupTransform s.pointcloud_queue with
    | mk fst snd =>
      cases fst with
      | none => rfl
      | some mT =>
        obtain ⟨m, T⟩ := mT
        simp only
        rw [ih]
        simp

theorem serviceLoop_filesWellNamed
    (lookupTransform : PointcloudMsg → Option Transformation) (t : Time) :
    ∀ (fuel : Nat) (s : ServerState), filesWellNamed s →
      filesWellNamed (serviceLoop lookupTransform t fuel s) := by
  intro fuel
  induction fuel with
  | zero => intro s h; exact h
  | succ n ih =>
    intro s h
    rw [serviceLoop]
    cases hg : getNextPointcloudFromQueue lookupTransform s.pointcloud_queue with
    | mk fst snd =>
      cases fst with
      | none => exact fun p hp => h p hp
      | some mT =>
        obtain ⟨m, T⟩ := mT
        simp only
        apply ih
        apply processAndRollover_filesWellNamed
        exact fun p hp => h p hp

/-- After the drain loop runs to completion (fuel exceeding the queue
length), the queue holds at most `kMaxQueueSize - 1` entries, provided it
held at most `kMaxQueueSize` on entry. -/
theorem serviceLoop_queue_bound
    (lookupTransform : PointcloudMsg → Option Transformation) (t : Time) :
    ∀ (fuel : Nat) (s : ServerState),
      s.pointcloud_queue.length < fuel →
      s.pointcloud_queue.length ≤ kMaxQueueSize →
      (serviceLoop lookupTransform t fuel s).pointcloud_queue.length ≤
        kMaxQueueSize - 1 := by
  intro fuel
  induction fuel with
  | zero => intro s h _; omega
  | succ n ih =>
    intro s hfuel hlen
    rw [serviceLoop]
    cases hg : getNextPointcloudFromQueue lookupTransform s.pointcloud_queue with
    | mk fst snd =>
      cases fst with
      | none =>
        have := getNext_none_length lookupTransform s.pointcloud_queue hlen
          (by rw [hg])
        rw [hg] at this
        simpa using this
      | some mT =>
        obtain ⟨m, T⟩ := mT
        simp only
        have hlen1 := getNext_some_length lookupTransform s.pointcloud_queue
          m T (by rw [hg])
        rw [hg] at hlen1
        dsimp only at hlen1
        apply ih
        · simp only [processAndRollover_pointcloud_queue]
          omega
        · simp only [processAndRollover_pointcloud_queue]
          simp only [kMaxQueueSize] at hlen ⊢
          omega

/-! ### The frame counter is determined by the creation/integration trace -/

theorem counterOfEvents_append_created (l : List Ev) :
    counterOfEvents (l ++ [Ev.created]) = 0 := by
  simp [counterOfEvents, List.foldl_append, evStep]

theorem counterOfEvents_append_integrated (l : List Ev) :
    counterOfEvents (l ++ [Ev.integrated]) = counterOfEvents l + 1 := by
  simp [counterOfEvents, List.foldl_append, evStep]

theorem counterOfEvents_append_created_integrated (l : List Ev) :
    counterOfEvents (l ++ [Ev.created, Ev.integrated]) = 1 := by
  simp [counterOfEvents, List.foldl_append, evStep]

theorem counterInv_createNewSubMap (s : ServerState) (T : Transformation)
    (t : Time) : counterInv (createNewSubMap s T t) := by
  unfold counterInv
  rw [createNewSubMap_counter, createNewSubMap_events,
    counterOfEvents_append_created]

theorem counterInv_processPointCloud (s : ServerState) (m : PointcloudMsg)
    (T : Transformation) (t : Time) (h : counterInv s) :
    counterInv (processPointCloudMessageAndInsert s m T t) := by
  unfold counterInv at h ⊢
  by_cases hi : mapIntialized s
  · obtain ⟨hc, he⟩ := processPointCloud_counter_init s m T t hi
    rw [hc, he, counterOfEvents_append_integrated, h]
  · obtain ⟨hc, he⟩ := processPointCloud_counter_uninit s m T t
      (by simpa using hi)
    rw [hc, he, counterOfEvents_append_created_integrated]

theorem counterInv_processAndRollover (s : ServerState) (m : PointcloudMsg)
    (T : Transformation) (t : Time) (h : counterInv s) :
    counterInv (processAndRollover s m T t) := by
  simp only [processAndRollover]
  split
  · exact counterInv_createNewSubMap _ _ _
  · exact counterInv_processPointCloud _ _ _ _ h

theorem counterInv_serviceLoop
    (lookupTransform : PointcloudMsg → Option Transformation) (t : Time) :
    ∀ (fuel : Nat) (s : ServerState), counterInv s →
      counterInv (serviceLoop lookupTransform t fuel s) := by
  intro fuel
  induction fuel with
  | zero => intro s h; exact h
  | succ n ih =>
    intro s h
    rw [serviceLoop]
    cases hg : getNextPointcloudFromQueue lookupTransform s.pointcloud_queue with
    | mk fst snd =>
      cases fst with
      | none => exact h
      | some mT =>
        obtain ⟨m, T⟩ := mT
        simp only
        exact ih _ (counterInv_processAndRollover _ _ _ _ h)

/-! ### Lemmas about the whole-map republish loop -/

theorem foldlPublish_counter (t : Time) (l : List Nat) :
    ∀ s : ServerState,
      (l.foldl (fun s id =>
          publishSubmap { s with collection := s.collection.activateSubMap id }
            id false t) s).num_integrated_frames_current_submap =
        s.num_integrated_frames_current_submap := by
  induction l with
  | nil => intro s; rfl
  | cons x xs ih => intro s; rw [List.foldl_cons, ih]; simp

theorem foldlPublish_events (t : Time) (l : List Nat) :
    ∀ s : ServerState,
      (l.foldl (fun s id =>
          publishSubmap { s with collection := s.collection.activateSubMap id }
            id false t) s).events = s.events := by
  induction l with
  | nil => intro s; rfl
  | cons x xs ih => intro s; rw [List.foldl_cons, ih]; simp

theorem foldlPublish_pointcloud_queue (t : Time) (l : List Nat) :
    ∀ s : ServerState,
      (l.foldl (fun s id =>
          publishSubmap { s with collection := s.collection.activateSubMap id }
            id false t) s).pointcloud_queue = s.pointcloud_queue := by
  induction l with
  | nil => intro s; rfl
  | cons x xs ih => intro s; rw [List.foldl_cons, ih]; simp

theorem foldlPublish_submap_queue (t : Time) (l : List Nat) :
    ∀ s : ServerState,
      (l.foldl (fun s id =>
          publishSubmap { s with collection := s.collection.activateSubMap id }
            id false t) s).submap_queue = s.submap_queue := by
  induction l with
  | nil => intro s; rfl
  | cons x xs ih => intro s; rw [List.foldl_cons, ih]; simp

theorem foldlPublish_path (t : Time) (l : List Nat) :
    ∀ s : ServerState,
      (l.foldl (fun s id =>
          publishSubmap { s with collection := s.collection.activateSubMap id }
            id false t) s).timing_path_name = s.timing_path_name := by
  induction l with
  | nil => intro s; rfl
  | cons x xs ih => intro s; rw [List.foldl_cons, ih]; simp

theorem foldlPublish_tid (t : Time) (l : List Nat) :
    ∀ s : ServerState,
      (l.foldl (fun s id =>
          publishSubmap { s with collection := s.collection.activateSubMap id }
            id false t) s).timing_time_id_name = s.timing_time_id_name := by
  induction l with
  | nil => intro s; rfl
  | cons x xs ih => intro s; rw [List.foldl_cons, ih]; simp

theorem foldlPublish_filesWellNamed (t : Time) (l : List Nat) :
    ∀ s : ServerState, filesWellNamed s →
      filesWellNamed (l.foldl (fun s id =>
        publishSubmap { s with collection := s.collection.activateSubMap id }
          id false t) s) := by
  induction l with
  | nil => intro s h; exact h
  | cons x xs ih =>
    intro s h
    rw [List.foldl_cons]
    apply ih
    apply publishSubmap_filesWellNamed
    exact fun p hp => h p hp

theorem visualizeWholeMap_eq_foldl (s : ServerState) (t : Time) :
    visualizeWholeMap s t =
      s.collection.getIDs.foldl (fun s id =>
        publishSubmap { s with collection := s.collection.activateSubMap id }
          id false t) s := rfl

/-! ### Per-callback and whole-run invariants -/

theorem counterInv_applyCallback (s : ServerState) (cb : Callback)
    (h : counterInv s) : counterInv (applyCallback s cb) := by
  cases cb with
  | pointcloud lookupTransform msg now =>
    apply counterInv_serviceLoop
    unfold counterInv at h ⊢
    rw [addMesage_counter, addMesage_events]
    exact h
  | submapIn msg now =>
    unfold counterInv at h ⊢
    simp only [applyCallback]
    rw [SubmapCallback_counter, SubmapCallback_events]
    exact h
  | load load_result now =>
    unfold counterInv at h ⊢
    simp only [applyCallback, loadMap]
    cases load_result with
    | some c =>
      simp only [publishSubmap_counter, publishSubmap_events,
        visualizeWholeMap_eq_foldl, foldlPublish_counter, foldlPublish_events]
      exact h
    | none =>
      simp only [publishSubmap_counter, publishSubmap_events]
      exact h
  | saveMap => exact h
  | meshTimer => exact h

theorem subqEmpty_applyCallback (s : ServerState) (cb : Callback)
    (h : s.submap_queue = []) : (applyCallback s cb).submap_queue = [] := by
  cases cb with
  | pointcloud lookupTransform msg now =>
    show (servicePointcloudQueue _ _ _).submap_queue = []
    rw [servicePointcloudQueue, serviceLoop_submap_queue, addMesage_submap_queue]
    exact h
  | submapIn msg now =>
    simp only [applyCallback, SubmapCallback, h, List.nil_append]
    simp
  | load load_result now =>
    simp only [applyCallback, loadMap]
    cases load_result with
    | some c =>
      simp only [publishSubmap_submap_queue, visualizeWholeMap_eq_foldl,
        foldlPublish_submap_queue]
      exact h
    | none =>
      simp only [publishSubmap_submap_queue]
      exact h
  | saveMap => exact h
  | meshTimer => exact h

theorem path_applyCallback (s : ServerState) (cb : Callback) :
    (applyCallback s cb).timing_path_name = s.timing_path_name ∧
      (applyCallback s cb).timing_time_id_name = s.timing_time_id_name := by
  cases cb with
  | pointcloud lookupTransform msg now =>
    constructor
    · show (servicePointcloudQueue _ _ _).timing_path_name = _
      rw [servicePointcloudQueue, serviceLoop_path, addMesage_path]
    · show (servicePointcloudQueue _ _ _).timing_time_id_name = _
      rw [servicePointcloudQueue, serviceLoop_tid, addMesage_tid]
  | submapIn msg now => exact ⟨SubmapCallback_path _ _ _, SubmapCallback_tid _ _ _⟩
  | load load_result now =>
    simp only [applyCallback, loadMap]
    cases load_result with
    | some c =>
      simp [visualizeWholeMap_eq_foldl, foldlPublish_path, foldlPublish_tid]
    | none => simp
  | saveMap => exact ⟨rfl, rfl⟩
  | meshTimer => exact ⟨rfl, rfl⟩

theorem filesWellNamed_applyCallback (s : ServerState) (cb : Callback)
    (h : filesWellNamed s) : filesWellNamed (applyCallback s cb) := by
  cases cb with
  | pointcloud lookupTransform msg now =>
    show filesWellNamed (servicePointcloudQueue _ _ _)
    rw [servicePointcloudQueue]
    apply serviceLoop_filesWellNamed
    intro p hp
    rw [addMesage_path, addMesage_tid]
    exact h p (by rw [addMesage_files] at hp; exact hp)
  | submapIn msg now => exact SubmapCallback_filesWellNamed _ _ _ h
  | load load_result now =>
    simp only [applyCallback, loadMap]
    cases load_result with
    | some c =>
      dsimp only
      apply publishSubmap_filesWellNamed
      rw [visualizeWholeMap_eq_foldl]
      apply foldlPublish_filesWellNamed
      exact fun p hp => h p hp
    | none =>
      dsimp only
      exact publishSubmap_filesWellNamed _ _ _ _ h
  | saveMap => exact h
  | meshTimer => exact h

theorem queueBound_applyCallback (s : ServerState) (cb : Callback)
    (h : s.pointcloud_queue.length ≤ kMaxQueueSize - 1) :
    (applyCallback s cb).pointcloud_queue.length ≤ kMaxQueueSize - 1 := by
  cases cb with
  | pointcloud lookupTransform msg now =>
    show (servicePointcloudQueue _ _ _).pointcloud_queue.length ≤ _
    rw [servicePointcloudQueue]
    apply serviceLoop_queue_bound
    · omega
    · have := addMesage_queue_length s msg
      simp only [kMaxQueueSize] at h ⊢
      omega
  | submapIn msg now =>
    simp only [applyCallback, SubmapCallback_pointcloud_queue]
    exact h
  | load load_result now =>
    simp only [applyCallback, loadMap]
    cases load_result with
    | some c =>
      simp only [publishSubmap_pointcloud_queue, visualizeWholeMap_eq_foldl,
        foldlPublish_pointcloud_queue]
      exact h
    | none =>
      simp only [publishSubmap_pointcloud_queue]
      exact h
  | saveMap => exact h
  | meshTimer => exact h

theorem runCallbacks_counterInv (ops : List Callback) :
    ∀ s : ServerState, counterInv s → counterInv (runCallbacks ops s) := by
  induction ops with
  | nil => intro s h; exact h
  | cons cb rest ih =>
    intro s h
    exact ih _ (counterInv_applyCallback s cb h)

theorem runCallbacks_subqEmpty (ops : List Callback) :
    ∀ s : ServerState, s.submap_queue = [] →
      (runCallbacks ops s).submap_queue = [] := by
  induction ops with
  | nil => intro s h; exact h
  | cons cb rest ih =>
    intro s h
    exact ih _ (subqEmpty_applyCallback s cb h)

theorem runCallbacks_path (ops : List Callback) :
    ∀ s : ServerState,
      (runCallbacks ops s).timing_path_name = s.timing_path_name ∧
        (runCallbacks ops s).timing_time_id_name = s.timing_time_id_name := by
  induction ops with
  | nil => intro s; exact ⟨rfl, rfl⟩
  | cons cb rest ih =>
    intro s
    obtain ⟨h1, h2⟩ := path_applyCallback s cb
    obtain ⟨h3, h4⟩ := ih (applyCallback s cb)
    exact ⟨h3.trans h1, h4.trans h2⟩

theorem runCallbacks_filesWellNamed (ops : List Callback) :
    ∀ s : ServerState, filesWellNamed s →
      filesWellNamed (runCallbacks ops s) := by
  induction ops with
  | nil => intro s h; exact h
  | cons cb rest ih =>
    intro s h
    exact ih _ (filesWellNamed_applyCallback s cb h)

theorem runCallbacks_queueBound (ops : List Callback) :
    ∀ s : ServerState, s.pointcloud_queue.length ≤ kMaxQueueSize - 1 →
      (runCallbacks ops s).pointcloud_queue.length ≤ kMaxQueueSize - 1 := by
  induction ops with
  | nil => intro s h; exact h
  | cons cb rest ih =>
    intro s h
    exact ih _ (queueBound_applyCallback s cb h)

@[simp]
theorem writeTimingToFile_threshold (s : ServerState) (a : String) (b : Nat)
    (c : Time) :
    (writeTimingToFile s a b c).num_integrated_frames_per_submap =
      s.num_integrated_frames_per_submap := by
  by_cases hcase : s.timing_path_name = "" <;> simp [writeTimingToFile, hcase]

@[simp]
theorem publishSubmap_threshold (s : ServerState) (i : Nat) (g : Bool)
    (t : Time) :
    (publishSubmap s i g t).num_integrated_frames_per_submap =
      s.num_integrated_frames_per_submap := by
  unfold publishSubmap; split <;> simp

@[simp]
theorem finishSubmap_threshold (s : ServerState) (t : Time) :
    (finishSubmap s t).num_integrated_frames_per_submap =
      s.num_integrated_frames_per_submap := by
  unfold finishSubmap; split <;> simp

@[simp]
theorem createNewSubMap_threshold (s : ServerState) (T : Transformation)
    (t : Time) :
    (createNewSubMap s T t).num_integrated_frames_per_submap =
      s.num_integrated_frames_per_submap := by
  simp [createNewSubMap]

@[simp]
theorem processPointCloud_threshold (s : ServerState) (m : PointcloudMsg)
    (T : Transformation) (t : Time) :
    (processPointCloudMessageAndInsert s m T t).num_integrated_frames_per_submap =
      s.num_integrated_frames_per_submap := by
  simp only [processPointCloudMessageAndInsert, integratePointcloud,
    intializeMap]
  split <;> simp

theorem createdCount_append (l l' : List Ev) :
    createdCount (l ++ l') = createdCount l + createdCount l' := by
  simp [createdCount, List.filter_append]

/-! ### Behaviour of the publish and record paths -/

theorem writeTimingToFile_records (s : ServerState) (a : String) (b : Nat)
    (c : Time) :
    (writeTimingToFile s a b c).timing_records =
      s.timing_records ++ [⟨a, b, c⟩] := by
  by_cases hcase : s.timing_path_name = "" <;> simp [writeTimingToFile, hcase]

theorem publishSubmap_global_published (s : ServerState) (id : Nat)
    (t : Time) (h1 : 0 < s.num_subscribers)
    (h2 : (s.collection.getSubMapConstPtrById id).isSome) :
    (publishSubmap s id true t).published =
      s.published ++
        [(true, ⟨0, Transformation.identity, s.collection.getProjectedMap⟩)] := by
  rw [publishSubmap, if_pos (And.intro h1 h2)]
  simp

theorem publishSubmap_nonglobal_published (s : ServerState) (id : Nat)
    (t : Time) (sub : TsdfSubmap) (h1 : 0 < s.num_subscribers)
    (h2 : s.collection.getSubMapConstPtrById id = some sub) :
    (publishSubmap s id false t).published =
      s.published ++ [(false, serializeSubmapToMsg sub)] := by
  rw [publishSubmap, if_pos (And.intro h1 (by rw [h2]; rfl))]
  simp [h2]

theorem publishSubmap_sent_records (s : ServerState) (id : Nat) (g : Bool)
    (t : Time) (h1 : 0 < s.num_subscribers)
    (h2 : (s.collection.getSubMapConstPtrById id).isSome) :
    (publishSubmap s id g t).timing_records =
      s.timing_records ++ [⟨"sent", s.collection.size, t⟩] := by
  rw [publishSubmap, if_pos (And.intro h1 h2)]
  rw [writeTimingToFile_records]

theorem activateSubMap_getSubMapConstPtrById (c : SubmapCollection)
    (i j : Nat) :
    (c.activateSubMap i).getSubMapConstPtrById j =
      c.getSubMapConstPtrById j := rfl

theorem getSubMapConstPtrById_eq_of_submaps (c c' : SubmapCollection)
    (h : c.submaps = c'.submaps) (id : Nat) :
    c.getSubMapConstPtrById id = c'.getSubMapConstPtrById id := by
  simp [SubmapCollection.getSubMapConstPtrById, h]

theorem getSubMapConstPtrById_isSome_of_mem (c : SubmapCollection) (id : Nat)
    (h : id ∈ c.getIDs) : (c.getSubMapConstPtrById id).isSome := by
  simp only [SubmapCollection.getIDs, List.mem_map] at h
  obtain ⟨sub, hsub, hid⟩ := h
  rw [SubmapCollection.getSubMapConstPtrById, List.find?_isSome]
  exact ⟨sub, hsub, by simp [hid]⟩

theorem foldlPublish_subscribers (t : Time) (l : List Nat) :
    ∀ s : ServerState,
      (l.foldl (fun s id =>
          publishSubmap { s with collection := s.collection.activateSubMap id }
            id false t) s).num_subscribers = s.num_subscribers := by
  induction l with
  | nil => intro s; rfl
  | cons x xs ih => intro s; rw [List.foldl_cons, ih]; simp

theorem foldlPublish_submaps (t : Time) (l : List Nat) :
    ∀ s : ServerState,
      (l.foldl (fun s id =>
          publishSubmap { s with collection := s.collection.activateSubMap id }
            id false t) s).collection.submaps = s.collection.submaps := by
  induction l with
  | nil => intro s; rfl
  | cons x xs ih =>
    intro s
    rw [List.foldl_cons, ih]
    simp [SubmapCollection.activateSubMap]

theorem foldlPublish_active (t : Time) (l : List Nat) :
    ∀ s : ServerState, l ≠ [] →
      (l.foldl (fun s id =>
          publishSubmap { s with collection := s.collection.activateSubMap id }
            id false t) s).collection.active_id ∈ l := by
  induction l with
  | nil => intro s h; exact absurd rfl h
  | cons x xs ih =>
    intro s _
    rw [List.foldl_cons]
    by_cases hxs : xs = []
    · subst hxs
      simp [SubmapCollection.activateSubMap]
    · exact List.mem_cons_of_mem x (ih _ hxs)

theorem foldlPublish_published (t : Time) (l : List Nat) :
    ∀ s : ServerState, 0 < s.num_subscribers →
      (∀ id ∈ l, (s.collection.getSubMapConstPtrById id).isSome) →
      ∃ msgs : List SubmapMsg,
        (l.foldl (fun s id =>
            publishSubmap { s with collection := s.collection.activateSubMap id }
              id false t) s).published =
          s.published ++ msgs.map (fun m => (false, m)) ∧
        msgs.length = l.length := by
  induction l with
  | nil => intro s _ _; exact ⟨[], by simp, rfl⟩
  | cons x xs ih =>
    intro s hsub hids
    rw [List.foldl_cons]
    have hx := hids x (List.mem_cons_self x xs)
    obtain ⟨sub, hsub_eq⟩ := Option.isSome_iff_exists.mp hx
    set s' : ServerState :=
      { s with collection := s.collection.activateSubMap x } with hs'
    have hpub := publishSubmap_nonglobal_published s' x t sub hsub
      (by rw [hs']; rw [activateSubMap_getSubMapConstPtrById]; exact hsub_eq)
    obtain ⟨msgs, hmsgs, hlen⟩ := ih (publishSubmap s' x false t)
      (by rw [publishSubmap_subscribers]; exact hsub)
      (by
        intro id hid
        rw [publishSubmap_collection]
        rw [getSubMapConstPtrById_eq_of_submaps _ s.collection
          (by rw [hs']; rfl)]
        exact hids id (List.mem_cons_of_mem x hid))
    refine ⟨serializeSubmapToMsg sub :: msgs, ?_, by simp [hlen]⟩
    rw [hmsgs, hpub]
    simp

end Cblox

namespace Cblox

/-! ### Claim theorems -/

/-- C1 (counterexample): the claim asserts that a drain call hitting an
unresolved front entry on a full queue of 10 entries empties the queue to 0
entries.  On a concrete full queue whose front transform does not resolve,
the drain pops entries only until the queue is below the bound: 9 entries
remain, so the queue is not emptied. -/
theorem c1_counterexample :
    (getNextPointcloudFromQueue noTransform q10).2.1.length = 9 ∧
      (getNextPointcloudFromQueue noTransform q10).2.1 ≠ [] := by
  constructor
  · decide
  · decide

/-- C1 (amended): across every run of callbacks from startup the ingest
queue never exceeds 10 entries (it holds at most 9 between callbacks and at
most 10 right after an enqueue); and a drain call that inspects an
unresolved front while the queue holds 10 entries pops entries from the
front until 9 remain (not a full flush to 0) and fires the overflow
warning. -/
theorem c1_amended :
    (∀ (cfg : Config) (ops : List Callback),
        (runCallbacks ops (initState cfg)).pointcloud_queue.length ≤ 9) ∧
    (∀ (s : ServerState) (m : PointcloudMsg),
        s.pointcloud_queue.length ≤ 9 →
        (addMesageToPointcloudQueue s m).pointcloud_queue.length ≤ 10) ∧
    (∀ (lookupTransform : PointcloudMsg → Option Transformation)
        (m : PointcloudMsg) (rest : List PointcloudMsg),
        (m :: rest).length = 10 → lookupTransform m = none →
        (getNextPointcloudFromQueue lookupTransform (m :: rest)).2.1.length = 9 ∧
        (getNextPointcloudFromQueue lookupTransform (m :: rest)).2.2 = true) := by
  refine ⟨fun cfg ops => ?_, fun s m h => ?_, fun l m rest hlen hnone => ?_⟩
  · have := runCallbacks_queueBound ops (initState cfg)
      (by simp [initState, kMaxQueueSize])
    simpa [kMaxQueueSize] using this
  · have := addMesage_queue_length s m
    omega
  · rw [getNextPointcloudFromQueue, hnone]
    simp only
    rw [if_pos (by simp only [kMaxQueueSize, List.length_cons] at hlen ⊢; omega)]
    refine ⟨?_, rfl⟩
    have := popWhileFull_length_of_ge (m :: rest)
      (by simp only [kMaxQueueSize, List.length_cons] at hlen ⊢; omega)
    simpa [kMaxQueueSize] using this

/-- C1 (witness): the amended theorem applied at concrete inputs — the
empty run, one enqueue onto a 9-element queue, and a full 10-element queue
with an unresolved front. -/
theorem c1_witness :
    ((runCallbacks [] (initState cfgA)).pointcloud_queue.length ≤ 9) ∧
    ((addMesageToPointcloudQueue
        { initState cfgA with pointcloud_queue := q10.tail }
        (mkMsg 20)).pointcloud_queue.length ≤ 10) ∧
    ((getNextPointcloudFromQueue noTransform
        (mkMsg 0 :: q10.tail)).2.1.length = 9 ∧
      (getNextPointcloudFromQueue noTransform (mkMsg 0 :: q10.tail)).2.2 = true) :=
  ⟨c1_amended.1 cfgA [],
   c1_amended.2.1 _ (mkMsg 20) (by decide),
   c1_amended.2.2 noTransform (mkMsg 0) q10.tail (by decide) rfl⟩

/-- C2 (counterexample): the claim asserts that with minimum interval 0.5 s
frames stamped 0.0 s, 0.3 s, 0.6 s are accepted, rejected, accepted.  On
the code, starting from process start (`last_msg_time_ptcloud_` = 0), the
frame at 0.0 s fails the strict comparison `0 - 0 > 0.5 s` and is
discarded: after the three enqueues the queue holds only the 0.6 s frame. -/
theorem c2_counterexample :
    ([m00, m03, m06].foldl addMesageToPointcloudQueue
        (initState cfg05)).pointcloud_queue = [m06] ∧
      m00 ∉ ([m00, m03, m06].foldl addMesageToPointcloudQueue
        (initState cfg05)).pointcloud_queue := by
  constructor
  · decide
  · decide

/-- C2 (amended): `enqueue` accepts a frame exactly when its stamp exceeds
the stamp of the last accepted frame (initially 0 at process start) by
STRICTLY MORE than the configured minimum interval, and silently discards
it otherwise; with minimum interval 0.5 s, frames stamped 0.0 s, 0.3 s,
0.6 s from process start are rejected, rejected, accepted. -/
theorem c2_amended :
    (∀ (s : ServerState) (m : PointcloudMsg),
        s.min_time_between_msgs < m.stamp - s.last_msg_time_ptcloud →
        (addMesageToPointcloudQueue s m).pointcloud_queue =
            s.pointcloud_queue ++ [m] ∧
          (addMesageToPointcloudQueue s m).last_msg_time_ptcloud = m.stamp) ∧
    (∀ (s : ServerState) (m : PointcloudMsg),
        ¬ s.min_time_between_msgs < m.stamp - s.last_msg_time_ptcloud →
        addMesageToPointcloudQueue s m = s) ∧
    throttleDecisions (initState cfg05) [m00, m03, m06] =
      [false, false, true] := by
  refine ⟨fun s m h => ?_, fun s m h => ?_, by decide⟩
  · rw [addMesageToPointcloudQueue, if_pos h]
    exact ⟨rfl, rfl⟩
  · rw [addMesageToPointcloudQueue, if_neg h]

/-- C2 (witness): the amended theorem applied at concrete inputs — an
accepted frame (stamp 0.6 s against last accepted 0) and a rejected frame
(stamp 0.3 s against last accepted 0). -/
theorem c2_witness :
    ((initState cfg05).min_time_between_msgs <
        m06.stamp - (initState cfg05).last_msg_time_ptcloud) ∧
    ((addMesageToPointcloudQueue (initState cfg05) m06).pointcloud_queue =
        (initState cfg05).pointcloud_queue ++ [m06] ∧
      (addMesageToPointcloudQueue (initState cfg05) m06).last_msg_time_ptcloud =
        m06.stamp) ∧
    (¬ (initState cfg05).min_time_between_msgs <
        m03.stamp - (initState cfg05).last_msg_time_ptcloud) ∧
    addMesageToPointcloudQueue (initState cfg05) m03 = initState cfg05 :=
  ⟨by decide, c2_amended.1 (initState cfg05) m06 (by decide), by decide,
   c2_amended.2.1 (initState cfg05) m03 (by decide)⟩

/-- C3: once the map is initialized, integrating one more frame rolls the
submap over exactly when the counter becomes strictly greater than the
threshold (so a threshold of N admits N+1 frames), and the counter right
after a rollover is 0, not 1; concretely, with threshold 5, frames 1..5
leave the counter at 5 with only the initial submap creation, and frame 6
triggers the rollover after which the counter is 0. -/
theorem c3_rollover :
    (∀ (s : ServerState) (m : PointcloudMsg) (T : Transformation) (t : Time),
      mapIntialized s = true →
      (s.num_integrated_frames_per_submap <
          s.num_integrated_frames_current_submap + 1 →
        (processAndRollover s m T t).num_integrated_frames_current_submap = 0 ∧
        createdCount (processAndRollover s m T t).events =
          createdCount s.events + 1) ∧
      (¬ s.num_integrated_frames_per_submap <
          s.num_integrated_frames_current_submap + 1 →
        (processAndRollover s m T t).num_integrated_frames_current_submap =
          s.num_integrated_frames_current_submap + 1 ∧
        createdCount (processAndRollover s m T t).events =
          createdCount s.events)) ∧
    ((runCallbacks (framesN 5) (initState cfgA)).num_integrated_frames_current_submap = 5 ∧
     createdCount (runCallbacks (framesN 5) (initState cfgA)).events = 1 ∧
     (runCallbacks (framesN 6) (initState cfgA)).num_integrated_frames_current_submap = 0 ∧
     createdCount (runCallbacks (framesN 6) (initState cfgA)).events = 2) := by
  constructor
  · intro s m T t hinit
    obtain ⟨hc, he⟩ := processPointCloud_counter_init s m T t hinit
    constructor
    · intro hgt
      have hcond : newSubmapRequired (processPointCloudMessageAndInsert s m T t) = true := by
        unfold newSubmapRequired
        rw [processPointCloud_threshold, hc]
        exact decide_eq_true hgt
      simp only [processAndRollover, hcond, if_true]
      refine ⟨createNewSubMap_counter _ _ _, ?_⟩
      rw [createNewSubMap_events, he, createdCount_append, createdCount_append]
      simp [createdCount]
    · intro hle
      have hcond : newSubmapRequired (processPointCloudMessageAndInsert s m T t) = false := by
        unfold newSubmapRequired
        rw [processPointCloud_threshold, hc]
        exact decide_eq_false hle
      simp only [processAndRollover, hcond, Bool.false_eq_true, if_false]
      refine ⟨hc, ?_⟩
      rw [he, createdCount_append]
      simp [createdCount]
  · refine ⟨by decide, by decide, by decide, by decide⟩

/-- C3 (witness): the general rollover rule applied at the concrete state
reached after five integrated frames with threshold 5: frame 6 makes the
counter exceed the threshold, the rollover fires, and the counter is reset
to 0 while the creation count rises by one. -/
theorem c3_witness :
    (mapIntialized s5 = true) ∧
    (s5.num_integrated_frames_per_submap <
        s5.num_integrated_frames_current_submap + 1) ∧
    ((processAndRollover s5 (mkMsg 6) Transformation.identity
        6).num_integrated_frames_current_submap = 0 ∧
      createdCount (processAndRollover s5 (mkMsg 6) Transformation.identity
        6).events = createdCount s5.events + 1) :=
  ⟨by decide, by decide,
   (c3_rollover.1 s5 (mkMsg 6) Transformation.identity 6 (by decide)).1
     (by decide)⟩

/-- C4 (counterexample): the claim asserts that a global publish always
produces a message with id 0, regardless of how many submaps exist.  On a
server with one subscriber and an empty store (zero submaps), a global
publish produces no message at all: `publishSubmap` is guarded on the
requested id existing in the collection. -/
theorem c4_counterexample :
    sEmptyWithSub.num_subscribers = 1 ∧
    sEmptyWithSub.collection.submaps.length = 0 ∧
    (publishSubmap sEmptyWithSub 7 true 0).published = [] := by
  refine ⟨rfl, rfl, by decide⟩

/-- C4 (amended): whenever the publisher has at least one subscriber and
the requested submap id exists in the store, a global publish produces
exactly one outbound message with id 0, identity pose and the
merged/projected payload of all submaps; otherwise — no subscriber, or the
requested id not in the store — no message is produced: the publish call
leaves the server state entirely unchanged. -/
theorem c4_amended :
    (∀ (s : ServerState) (id : Nat) (t : Time),
        0 < s.num_subscribers →
        (s.collection.getSubMapConstPtrById id).isSome →
        (publishSubmap s id true t).published =
          s.published ++
            [(true, ⟨0, Transformation.identity,
              s.collection.getProjectedMap⟩)]) ∧
    (∀ (s : ServerState) (id : Nat) (g : Bool) (t : Time),
        ¬ (0 < s.num_subscribers ∧
            (s.collection.getSubMapConstPtrById id).isSome) →
        publishSubmap s id g t = s) := by
  constructor
  · intro s id t h1 h2
    rw [publishSubmap, if_pos (And.intro h1 h2)]
    simp
  · intro s id g t h
    rw [publishSubmap, if_neg h]

/-- C4 (witness): the amended theorem applied at concrete inputs — a store
of three submaps with a subscriber (the global publish emits the synthetic
id-0 submap with identity pose), a subscriber with an empty store (the
requested id does not exist: no message, state unchanged), and a store of
three submaps without subscribers (no message, state unchanged). -/
theorem c4_witness :
    ((0 < sThreeSubs.num_subscribers) ∧
      ((sThreeSubs.collection.getSubMapConstPtrById 1).isSome) ∧
      (publishSubmap sThreeSubs 1 true 0).published =
        sThreeSubs.published ++
          [(true, ⟨0, Transformation.identity,
            sThreeSubs.collection.getProjectedMap⟩)]) ∧
    ((¬ (0 < sEmptyWithSub.num_subscribers ∧
        (sEmptyWithSub.collection.getSubMapConstPtrById 7).isSome)) ∧
      publishSubmap sEmptyWithSub 7 true 0 = sEmptyWithSub) ∧
    ((¬ (0 < sThreeSubsNoSub.num_subscribers ∧
        (sThreeSubsNoSub.collection.getSubMapConstPtrById 1).isSome)) ∧
      publishSubmap sThreeSubsNoSub 1 true 0 = sThreeSubsNoSub) :=
  ⟨⟨by decide, by decide,
    c4_amended.1 sThreeSubs 1 0 (by decide) (by decide)⟩,
   ⟨by decide, c4_amended.2 sEmptyWithSub 7 true 0 (by decide)⟩,
   ⟨by decide, c4_amended.2 sThreeSubsNoSub 1 true 0 (by decide)⟩⟩

/-- C6: a drain call never removes or returns a non-front entry — the
resulting queue is always a suffix of the input queue (front-only removal,
also under the overflow flush), and whenever a frame is returned it is the
front entry and exactly that entry is removed.  Hence frames can only be
dequeued in arrival order. -/
theorem c6_fifo :
    ∀ (lookupTransform : PointcloudMsg → Option Transformation)
      (q : List PointcloudMsg),
      ((getNextPointcloudFromQueue lookupTransform q).2.1).IsSuffix q ∧
      (∀ (m : PointcloudMsg) (T : Transformation),
        (getNextPointcloudFromQueue lookupTransform q).1 = some (m, T) →
        q.head? = some m ∧
          (getNextPointcloudFromQueue lookupTransform q).2.1 = q.tail) :=
  fun lookupTransform q =>
    ⟨getNext_suffix lookupTransform q,
     fun m T h => getNext_some lookupTransform q m T h⟩

/-- C6 (witness): on the queue [frame 1, frame 2] with both transforms
resolvable, the first drain returns frame 1 (the front) and leaves exactly
[frame 2]; applying the theorem again to the remaining queue shows frame 2
is only returned afterwards — strict FIFO. -/
theorem c6_witness :
    ([mkMsg 1, mkMsg 2].head? = some (mkMsg 1) ∧
      (getNextPointcloudFromQueue allTransforms [mkMsg 1, mkMsg 2]).2.1 =
        [mkMsg 1, mkMsg 2].tail) ∧
    ([mkMsg 2].head? = some (mkMsg 2) ∧
      (getNextPointcloudFromQueue allTransforms [mkMsg 2]).2.1 =
        [mkMsg 2].tail) :=
  ⟨(c6_fifo allTransforms [mkMsg 1, mkMsg 2]).2 (mkMsg 1)
      Transformation.identity (by decide),
   (c6_fifo allTransforms [mkMsg 2]).2 (mkMsg 2)
      Transformation.identity (by decide)⟩

/-- C5 (counterexample): the claim asserts that a successful load of a
store with K submaps yields exactly K+1 publish events.  On a server
without subscribers, a successful load of a three-submap store yields zero
publish events (`publishSubmap` is a no-op without subscribers), not 4. -/
theorem c5_counterexample :
    sThreeSubsNoSub.num_subscribers = 0 ∧
    (loadMap sThreeSubsNoSub (some c3sub) 5).1 = true ∧
    (loadMap sThreeSubsNoSub (some c3sub) 5).2.published = [] := by
  refine ⟨rfl, rfl, by decide⟩

/-- C5 (amended): when the publisher has at least one subscriber and the
loaded store is non-empty, a successful load re-publishes every stored
submap through the non-global path and then performs exactly one global
publish: K non-global publish events followed by one global event, K+1 in
total. -/
theorem c5_amended :
    ∀ (s : ServerState) (c : SubmapCollection) (t : Time),
      0 < s.num_subscribers → c.submaps ≠ [] →
      (loadMap s (some c) t).1 = true ∧
      ∃ (nonglobal : List (Bool × SubmapMsg)) (gmsg : SubmapMsg),
        (loadMap s (some c) t).2.published =
            s.published ++ nonglobal ++ [(true, gmsg)] ∧
          nonglobal.length = c.submaps.length ∧
          (∀ e ∈ nonglobal, e.1 = false) ∧
          gmsg.id = 0 ∧ gmsg.pose = Transformation.identity := by
  intro s c t hsub hne
  refine ⟨rfl, ?_⟩
  obtain ⟨msgs, hpub, hlen⟩ := foldlPublish_published t c.getIDs
    { s with collection := c } hsub
    (fun id hid => getSubMapConstPtrById_isSome_of_mem c id hid)
  have hsub1 : 0 <
      (visualizeWholeMap { s with collection := c } t).num_subscribers := by
    rw [visualizeWholeMap_eq_foldl, foldlPublish_subscribers]
    exact hsub
  have hne' : c.getIDs ≠ [] := by
    simpa [SubmapCollection.getIDs] using hne
  have hact : (visualizeWholeMap
      { s with collection := c } t).collection.active_id ∈ c.getIDs := by
    rw [visualizeWholeMap_eq_foldl]
    exact foldlPublish_active t c.getIDs { s with collection := c } hne'
  have hsm : (visualizeWholeMap
      { s with collection := c } t).collection.submaps = c.submaps := by
    rw [visualizeWholeMap_eq_foldl, foldlPublish_submaps]
  have hguard : ((visualizeWholeMap
      { s with collection := c } t).collection.getSubMapConstPtrById
        ((visualizeWholeMap
          { s with collection := c } t).collection.getActiveSubMapID)).isSome := by
    rw [getSubMapConstPtrById_eq_of_submaps _ c hsm]
    exact getSubMapConstPtrById_isSome_of_mem c _ hact
  have hg := publishSubmap_global_published
    (visualizeWholeMap { s with collection := c } t) _ t hsub1 hguard
  refine ⟨msgs.map (fun m => (false, m)),
    ⟨0, Transformation.identity,
      (visualizeWholeMap { s with collection := c } t).collection.getProjectedMap⟩,
    ?_, by simpa [SubmapCollection.getIDs] using hlen, by simp, rfl, rfl⟩
  show (publishSubmap (visualizeWholeMap { s with collection := c } t)
      ((visualizeWholeMap
        { s with collection := c } t).collection.getActiveSubMapID) true
      t).published = _
  rw [hg]
  rw [visualizeWholeMap_eq_foldl, hpub]

/-- C5 (witness): the amended theorem applied at a concrete server with one
subscriber and a successfully loaded three-submap store: 3 non-global
publish events followed by 1 global event. -/
theorem c5_witness :
    (0 < sThreeSubs.num_subscribers) ∧ (c3sub.submaps ≠ []) ∧
    ((loadMap sThreeSubs (some c3sub) 5).1 = true ∧
      ∃ (nonglobal : List (Bool × SubmapMsg)) (gmsg : SubmapMsg),
        (loadMap sThreeSubs (some c3sub) 5).2.published =
            sThreeSubs.published ++ nonglobal ++ [(true, gmsg)] ∧
          nonglobal.length = c3sub.submaps.length ∧
          (∀ e ∈ nonglobal, e.1 = false) ∧
          gmsg.id = 0 ∧ gmsg.pose = Transformation.identity) :=
  ⟨by decide, by decide, c5_amended sThreeSubs c3sub 5 (by decide) (by decide)⟩

/-- C7: across every run of callbacks from startup, the per-submap frame
counter equals the value determined by folding the trace of
counter-mutation events (reset to 0 at each submap creation/activation,
incremented by each integration): the counter is reset exactly when a new
submap is created and becomes active, and no other operation mutates it. -/
theorem c7_counter_reset :
    ∀ (cfg : Config) (ops : List Callback),
      (runCallbacks ops (initState cfg)).num_integrated_frames_current_submap =
        counterOfEvents (runCallbacks ops (initState cfg)).events :=
  fun cfg ops => runCallbacks_counterInv ops (initState cfg) rfl

/-- C8: a `receive` call merges the decoded message unchanged into the
store before returning, the inbound single-slot queue is empty again when
the call returns (and is empty in every reachable state), and a timing
record labelled "received" is appended for the call. -/
theorem c8_receive :
    (∀ (s : ServerState) (msg : SubmapMsg) (t : Time),
        s.submap_queue = [] →
        (SubmapCallback s msg t).collection =
            deserializeMsgToSubmap msg s.collection ∧
          (SubmapCallback s msg t).submap_queue = [] ∧
          (SubmapCallback s msg t).timing_records =
            s.timing_records ++
              [⟨"received", (deserializeMsgToSubmap msg s.collection).size, t⟩]) ∧
    (∀ (cfg : Config) (ops : List Callback),
        (runCallbacks ops (initState cfg)).submap_queue = []) := by
  constructor
  · intro s msg t h
    simp only [SubmapCallback, h, List.nil_append]
    refine ⟨?_, ?_, ?_⟩
    · rw [writeTimingToFile_collection]
    · rw [writeTimingToFile_submap_queue]
    · rw [writeTimingToFile_records]
  · intro cfg ops
    exact runCallbacks_subqEmpty ops (initState cfg) rfl

/-- C8 (witness): the theorem applied to a concrete server receiving a
concrete wire message: the store is updated by exactly the decoded message
and the inbound queue is empty on return. -/
theorem c8_witness :
    (sThreeSubs.submap_queue = []) ∧
    ((SubmapCallback sThreeSubs inMsg 3).collection =
        deserializeMsgToSubmap inMsg sThreeSubs.collection ∧
      (SubmapCallback sThreeSubs inMsg 3).submap_queue = [] ∧
      (SubmapCallback sThreeSubs inMsg 3).timing_records =
        sThreeSubs.timing_records ++
          [⟨"received", (deserializeMsgToSubmap inMsg sThreeSubs.collection).size,
            3⟩]) :=
  ⟨rfl, c8_receive.1 sThreeSubs inMsg 3 rfl⟩

/-- C9: `record(label, submap_count, timestamp)` with no timing path
configured changes nothing beyond the call log (no file is touched); with a
path configured it appends exactly one line `<timestamp_ns> <submap_count>
<label>` to the network-timing file and one block `<label> <submap_count>`
followed by the profiling dump to the process-timing file; and in every
reachable state all file appends go to the two files named with the
session-start identifier captured at process start. -/
theorem c9_timing :
    (∀ (s : ServerState) (label : String) (id : Nat) (t : Time),
        s.timing_path_name = "" →
        writeTimingToFile s label id t =
          { s with timing_records := s.timing_records ++ [⟨label, id, t⟩] }) ∧
    (∀ (s : ServerState) (label : String) (id : Nat) (t : Time),
        s.timing_path_name ≠ "" →
        (writeTimingToFile s label id t).files =
          s.files ++
            [(networkFileName s.timing_path_name s.timing_time_id_name,
              toString t ++ " " ++ toString id ++ " " ++ label ++ "\n"),
             (processFileName s.timing_path_name s.timing_time_id_name,
              label ++ " " ++ toString id ++ "\n" ++ timingPrint ++ "\n")]) ∧
    (∀ (cfg : Config) (ops : List Callback),
        ∀ p ∈ (runCallbacks ops (initState cfg)).files,
          p.1 = networkFileName cfg.timing_path_name cfg.timing_time_id_name ∨
          p.1 = processFileName cfg.timing_path_name cfg.timing_time_id_name) := by
  refine ⟨fun s label id t h => ?_, fun s label id t h => ?_,
    fun cfg ops p hp => ?_⟩
  · simp [writeTimingToFile, h]
  · simp [writeTimingToFile, h]
  · have hw := runCallbacks_filesWellNamed ops (initState cfg)
      (fun q hq => absurd hq (by simp [initState]))
    have hnamed := hw p hp
    obtain ⟨h1, h2⟩ := runCallbacks_path ops (initState cfg)
    rw [h1, h2] at hnamed
    exact hnamed

/-- C9 (witness): the theorem applied at concrete inputs — a record call
with no path configured (files untouched), one with a path configured (the
two appends, with their exact contents), and a concrete reachable file
entry (produced by receiving a submap message) named with the
session-start identifier. -/
theorem c9_witness :
    ((initState cfgA).timing_path_name = "") ∧
    (writeTimingToFile (initState cfgA) "sent" 2 7 =
      { initState cfgA with
          timing_records := (initState cfgA).timing_records ++ [⟨"sent", 2, 7⟩] }) ∧
    ((initState cfgT).timing_path_name ≠ "") ∧
    ((writeTimingToFile (initState cfgT) "sent" 2 7).files =
      (initState cfgT).files ++
        [(networkFileName (initState cfgT).timing_path_name
            (initState cfgT).timing_time_id_name,
          toString (7 : Int) ++ " " ++ toString (2 : Nat) ++ " " ++ "sent" ++ "\n"),
         (processFileName (initState cfgT).timing_path_name
            (initState cfgT).timing_time_id_name,
          "sent" ++ " " ++ toString (2 : Nat) ++ "\n" ++ timingPrint ++ "\n")]) ∧
    (("/logs/network_timing_sessid.txt", "4 1 received\n") ∈
        (runCallbacks [Callback.submapIn inMsg 4] (initState cfgT)).files) ∧
    (("/logs/network_timing_sessid.txt", "4 1 received\n").1 =
        networkFileName cfgT.timing_path_name cfgT.timing_time_id_name ∨
      ("/logs/network_timing_sessid.txt", "4 1 received\n").1 =
        processFileName cfgT.timing_path_name cfgT.timing_time_id_name) :=
  ⟨rfl, c9_timing.1 (initState cfgA) "sent" 2 7 rfl, by decide,
   c9_timing.2.1 (initState cfgT) "sent" 2 7 (by decide), by decide,
   c9_timing.2.2 cfgT [Callback.submapIn inMsg 4]
     ("/logs/network_timing_sessid.txt", "4 1 received\n") (by decide)⟩

/-- C10: a failed load still executes the one global publish — `loadMap`
with a failing loader returns false yet its final state is exactly the
global publish of the current active submap id applied to the unchanged
state; in particular, with a subscriber and an existing active submap, a
failed load emits one global publish event and one "sent" timing record,
and no non-global re-publish. -/
theorem c10_failed_load :
    ∀ (s : ServerState) (t : Time),
      (loadMap s none t).1 = false ∧
      (loadMap s none t).2 =
        publishSubmap s s.collection.getActiveSubMapID true t ∧
      (0 < s.num_subscribers →
        (s.collection.getSubMapConstPtrById
          s.collection.getActiveSubMapID).isSome →
        (loadMap s none t).2.published =
            s.published ++
              [(true, ⟨0, Transformation.identity,
                s.collection.getProjectedMap⟩)] ∧
          (loadMap s none t).2.timing_records =
            s.timing_records ++ [⟨"sent", s.collection.size, t⟩]) := by
  intro s t
  refine ⟨rfl, rfl, fun h1 h2 => ⟨?_, ?_⟩⟩
  · exact publishSubmap_global_published s _ t h1 h2
  · exact publishSubmap_sent_records s _ true t h1 h2

/-- C10 (witness): the theorem applied at a concrete server with three
submaps and a subscriber: the failed load returns false and still emits the
global publish of the active submap plus the "sent" record. -/
theorem c10_witness :
    (0 < sThreeSubs.num_subscribers) ∧
    ((sThreeSubs.collection.getSubMapConstPtrById
        sThreeSubs.collection.getActiveSubMapID).isSome) ∧
    ((loadMap sThreeSubs none 2).1 = false) ∧
    ((loadMap sThreeSubs none 2).2.published =
        sThreeSubs.published ++
          [(true, ⟨0, Transformation.identity,
            sThreeSubs.collection.getProjectedMap⟩)] ∧
      (loadMap sThreeSubs none 2).2.timing_records =
        sThreeSubs.timing_records ++
          [⟨"sent", sThreeSubs.collection.size, 2⟩]) :=
  ⟨by decide, by decide, (c10_failed_load sThreeSubs 2).1,
   (c10_failed_load sThreeSubs 2).2.2 (by decide) (by decide)⟩

end Cblox
